import Mathlib

/-!
Verification of the bluetooth-serial-port-async repository.

Shallow embedding of the core of the crate:
  * the 6-byte device address type with its byte-order conversion,
    formatting and parsing (src/socket.rs),
  * the device-inquiry wrapper scan_devices (src/linux/hci.rs),
  * the connection state machine BtSocketConnect::advance
    (src/socket.rs and src/linux/socket.rs, which are identical here).

Strings handled by the Rust code are modelled as lists of byte values
(List Nat, each entry intended < 256), matching the byte-level view the
source itself takes (it splits on the colon byte and indexes as_bytes()).
Syscall results (connect, getpeername, read, the hci_* calls and the
result of the SDP query object) are supplied by explicit environment
records, since they are external to the program text.
-/

namespace BtSerial

/-- A 6-byte long MAC address: BtAddr(pub [u8; 6]) from src/socket.rs.
Bytes are Nat values intended to lie below 256 (Rust u8). -/
structure BtAddr where
  a0 : Nat
  a1 : Nat
  a2 : Nat
  a3 : Nat
  a4 : Nat
  a5 : Nat
deriving DecidableEq, Repr

/-- All six bytes are in the u8 range; automatic in Rust, explicit here. -/
def BtAddr.Valid (a : BtAddr) : Prop :=
  a.a0 < 256 ∧ a.a1 < 256 ∧ a.a2 < 256 ∧ a.a3 < 256 ∧ a.a4 < 256 ∧ a.a5 < 256

instance (a : BtAddr) : Decidable a.Valid := by
  unfold BtAddr.Valid; infer_instance

/-- Byte i of the address, i.e. self.0[i]. -/
def BtAddr.get (a : BtAddr) : Fin 6 → Nat
  | ⟨0, _⟩ => a.a0
  | ⟨1, _⟩ => a.a1
  | ⟨2, _⟩ => a.a2
  | ⟨3, _⟩ => a.a3
  | ⟨4, _⟩ => a.a4
  | ⟨5, _⟩ => a.a5

/-- BtAddr::any(): the address 00:00:00:00:00:00. -/
def BtAddr.any : BtAddr := ⟨0, 0, 0, 0, 0, 0⟩

/-- convert_host_byteorder, cfg(target_endian = "little") variant.
The source splits the array at index 3 and performs
swap(v1[0], v2[2]); swap(v1[1], v2[1]); swap(v1[2], v2[0]),
i.e. it swaps the byte pairs (0,5), (1,4), (2,3). -/
def BtAddr.convert_host_byteorder_le (a : BtAddr) : BtAddr :=
  ⟨a.a5, a.a4, a.a3, a.a2, a.a1, a.a0⟩

/-- convert_host_byteorder, cfg(target_endian = "big") variant: identity. -/
def BtAddr.convert_host_byteorder_be (a : BtAddr) : BtAddr := a

/-- convert_host_byteorder with the compile-time endianness choice made a
runtime parameter (true on a little-endian host). -/
def BtAddr.convert_host_byteorder (littleEndian : Bool) (a : BtAddr) : BtAddr :=
  if littleEndian then a.convert_host_byteorder_le else a.convert_host_byteorder_be

/-- Uppercase hex digit byte for a value below 16, as produced by the
Rust formatting specifier for one nibble of a byte. -/
def hexDigitByte (n : Nat) : Nat :=
  if n < 10 then 48 + n else 55 + n

/-- ToString for BtAddr: six zero-padded uppercase two-hex-digit groups
separated by colon bytes (58), from src/socket.rs to_string. -/
def BtAddr.to_string (a : BtAddr) : List Nat :=
  [hexDigitByte (a.a0 / 16), hexDigitByte (a.a0 % 16), 58,
   hexDigitByte (a.a1 / 16), hexDigitByte (a.a1 % 16), 58,
   hexDigitByte (a.a2 / 16), hexDigitByte (a.a2 % 16), 58,
   hexDigitByte (a.a3 / 16), hexDigitByte (a.a3 % 16), 58,
   hexDigitByte (a.a4 / 16), hexDigitByte (a.a4 % 16), 58,
   hexDigitByte (a.a5 / 16), hexDigitByte (a.a5 % 16)]

/-- Rust char::to_digit(16) applied to a byte cast to char: some value for
the ASCII hex digits (0-9, A-F, a-f), none for every other byte. -/
def hexDigitVal (c : Nat) : Option Nat :=
  if 48 ≤ c ∧ c ≤ 57 then some (c - 48)
  else if 65 ≤ c ∧ c ≤ 70 then some (c - 55)
  else if 97 ≤ c ∧ c ≤ 102 then some (c - 87)
  else none

/-- Rust str::split on the colon byte: splitting an empty string yields one
empty group, a separator at either end yields an empty group there. -/
def splitColon : List Nat → List (List Nat)
  | [] => [[]]
  | c :: rest =>
    if c = 58 then [] :: splitColon rest
    else
      match splitColon rest with
      | g :: gs => (c :: g) :: gs
      | [] => [[c]]

/-- The group loop of BtAddr::from_str: i counts groups already parsed,
acc holds the bytes written into addr.0 so far. A group is rejected when
i has already reached 6 or its byte length is not 2; otherwise both bytes
must be hex digits. After the loop the source requires i == 6. -/
def from_str_go : List (List Nat) → Nat → List Nat → Option (List Nat)
  | [], i, acc => if i = 6 then some acc else none
  | g :: gs, i, acc =>
    if i = 6 ∨ g.length ≠ 2 then none
    else
      (g.get? 0).bind fun hb =>
      (g.get? 1).bind fun lb =>
      (hexDigitVal hb).bind fun high =>
      (hexDigitVal lb).bind fun low =>
      from_str_go gs (i + 1) (acc ++ [high * 16 + low])

/-- FromStr for BtAddr (src/socket.rs): split the input on colons and run
the group loop; on success exactly 6 bytes have been produced. -/
def BtAddr.from_str (s : List Nat) : Option BtAddr :=
  (from_str_go (splitColon s) 0 []).bind fun bytes =>
    match bytes with
    | [b0, b1, b2, b3, b4, b5] => some ⟨b0, b1, b2, b3, b4, b5⟩
    | _ => none

/-- A byte that is an ASCII hex digit, written out as the spec describes it
(digits, uppercase letters A-F, lowercase letters a-f). -/
def IsHexDigitByte (c : Nat) : Prop :=
  (48 ≤ c ∧ c ≤ 57) ∨ (65 ≤ c ∧ c ≤ 70) ∨ (97 ≤ c ∧ c ≤ 102)

instance (c : Nat) : Decidable (IsHexDigitByte c) := by
  unfold IsHexDigitByte; infer_instance

/-- The address-text format stated by the spec, for comparison with
BtAddr.from_str: exactly six colon-separated groups, each exactly two
bytes long and made of hex digits (case-insensitive). -/
def AddrTextSpec (s : List Nat) : Prop :=
  (splitColon s).length = 6 ∧
    ∀ g ∈ splitColon s, g.length = 2 ∧ ∀ c ∈ g, IsHexDigitByte c

instance (s : List Nat) : Decidable (AddrTextSpec s) := by
  unfold AddrTextSpec; infer_instance

/-- The error taxonomy BtError from src/socket.rs. -/
inductive BtError
  | Unknown
  | Errno (code : Nat) (msg : String)
  | Desc (msg : String)
  | IoError
deriving DecidableEq, Repr

/-- create_error_from_errno from src/socket.rs. The source appends the OS
strerror text for the errno to the message; that suffix is an OS table
lookup outside the program and is not modelled — every claim depends only
on the errno code and the base message. -/
def create_error_from_errno (message : String) (errno : Nat) : BtError :=
  .Errno errno message

/-- A device found by the inquiry: BtDevice from src/socket.rs. -/
structure BtDevice where
  name : String
  addr : BtAddr
deriving DecidableEq, Repr

/-- std::time::Duration as scan_devices consumes it: whole seconds (u64)
and the sub-second nanoseconds. -/
structure Duration where
  secs : Nat
  subsecNanos : Nat
deriving DecidableEq, Repr

/-- u32::max_value(), the bound checked by scan_devices. -/
def u32_max : Nat := 4294967295

/-- Results of the OS and BlueZ calls scan_devices makes, supplied by the
environment: hci_get_route, hci_open_dev, hci_inquiry (return value plus
the addresses written into the 256-entry buffer), hci_read_remote_name per
buffer index (none models a negative return), and close. Each errno field
is the value errno holds right after the corresponding failing call. -/
structure ScanEnv where
  littleEndian : Bool
  getRouteRet : Int
  getRouteErrno : Nat
  openDevRet : Int
  openDevErrno : Nat
  inquiryRet : Int
  inquiryErrno : Nat
  inquiryAddr : Nat → BtAddr
  readRemoteName : Nat → Option String
  closeRet : Int
  closeErrno : Nat

/-- scan_devices from src/linux/hci.rs. The second component records
whether hci_inquiry was invoked. The floating-point rounding that turns
the validated timeout into the c_int handed to hci_inquiry only shapes
that argument; the inquiry outcome is environment-supplied, so the
rounded value itself is not modelled. -/
def scan_devices (timeout : Duration) (env : ScanEnv) :
    Except BtError (List BtDevice) × Bool :=
  if env.getRouteRet < 0 then
    (.error (create_error_from_errno
      ("hci_get_route(): No local bluetooth adapter found") env.getRouteErrno), false)
  else if env.openDevRet < 0 then
    (.error (create_error_from_errno
      ("hci_open_dev(): Opening local bluetooth adapter failed") env.openDevErrno), false)
  else if timeout.secs > u32_max then
    (.error (.Desc ("Timeout value too big " ++ toString timeout.secs ++ " > "
      ++ toString u32_max)), false)
  else if env.inquiryRet < 0 then
    (.error (create_error_from_errno
      ("hci_inquiry(): Scanning remote bluetooth devices failed") env.inquiryErrno), true)
  else
    let count := min env.inquiryRet.toNat 256
    let devices := (List.range count).map fun i =>
      ({ name := (env.readRemoteName i).getD ("[unknown]"),
         addr := (env.inquiryAddr i).convert_host_byteorder env.littleEndian } : BtDevice)
    if env.closeRet < 0 then
      (.error (create_error_from_errno ("close()") env.closeErrno), true)
    else
      (.ok devices, true)

/-- The interface of the sdp module's query object as consumed by
BtSocketConnect::advance: wait directives carrying a file descriptor, or
the discovered RFCOMM channel number (u8). -/
inductive QueryRFCOMMChannelStatus
  | WaitReadable (fd : Int)
  | WaitWritable (fd : Int)
  | Done (channel : Nat)
deriving DecidableEq, Repr

/-- mio::Ready interest requested from the caller. -/
inductive Interest
  | readable
  | writable
deriving DecidableEq, Repr

/-- BtAsync from src/socket.rs. WaitFor carries the evented object self,
which registers self.pollfd, so it is modelled by that fd value. -/
inductive BtAsyncR
  | WaitFor (fd : Int) (interest : Interest)
  | Done
deriving DecidableEq, Repr

/-- BtSocketConnectState from src/socket.rs. -/
inductive BtSocketConnectState
  | SDPSearch
  | Connect
  | Done
deriving DecidableEq, Repr

/-- sockaddr_rc from src/socket.rs. -/
structure sockaddr_rc where
  rc_family : Nat
  rc_bdaddr : BtAddr
  rc_channel : Nat
deriving DecidableEq, Repr

/-- The mutable state of BtSocketConnect: target address, last pollfd,
phase tag, and the target socket's fd (socket.get_fd()). The embedded
query object's internal state is external to this machine; each call's
query.advance() result is environment-supplied. -/
structure BtSocketConnect where
  addr : BtAddr
  pollfd : Int
  state : BtSocketConnectState
  socketFd : Int
deriving DecidableEq, Repr

/-- Syscall results consumed by one call to advance: the query result,
the connect() return with its errno, the getpeername() return with its
errno, and the one-byte probe read result (error errno or bytes read). -/
structure ConnectEnv where
  queryAdvance : Except BtError QueryRFCOMMChannelStatus
  connectRet : Int
  connectErrno : Nat
  getpeernameRet : Int
  getpeernameErrno : Nat
  readProbe : Except Nat Nat

/-- Observable effects one advance call performs on the OS. -/
inductive SysEffect
  | connectCall (fd : Int) (address : sockaddr_rc)
  | getpeernameCall (fd : Int)
  | readProbeCall (fd : Int)
deriving DecidableEq, Repr

/-- How one advance call ends: a returned BtAsync value, a returned
BtError, or a Rust panic. -/
inductive AdvanceOutcome
  | ok (r : BtAsyncR)
  | err (e : BtError)
  | panicked (msg : String)
deriving DecidableEq, Repr

/-- AF_BLUETOOTH as used for sockaddr_rc.rc_family. -/
def AF_BLUETOOTH : Nat := 31

/-- The Linux errno value of ENOTCONN. -/
def ENOTCONN : Nat := 107

/-- The Linux errno value of EINPROGRESS. -/
def EINPROGRESS : Nat := 115

/-- The Linux errno value of ECONNREFUSED. -/
def ECONNREFUSED : Nat := 111

/-- BtSocketConnect::new from src/socket.rs: pollfd starts at 0, state at
SDPSearch. -/
def BtSocketConnect.new (socketFd : Int) (addr : BtAddr) : BtSocketConnect :=
  { addr := addr, pollfd := 0, state := .SDPSearch, socketFd := socketFd }

/-- BtSocket::connect entry (src/socket.rs and src/linux/socket.rs):
converts the target address to wire byte order once, then constructs the
state machine. -/
def BtSocket.connect (socketFd : Int) (littleEndian : Bool) (addr : BtAddr) :
    BtSocketConnect :=
  BtSocketConnect.new socketFd (addr.convert_host_byteorder littleEndian)

/-- BtSocketConnect::advance from src/socket.rs (identical in
src/linux/socket.rs): returns the call's outcome, the state after the
call, and the syscalls performed. -/
def BtSocketConnect.advance (s : BtSocketConnect) (env : ConnectEnv) :
    AdvanceOutcome × BtSocketConnect × List SysEffect :=
  match s.state with
  | .SDPSearch =>
    match env.queryAdvance with
    | .error e => (.err e, s, [])
    | .ok (.WaitReadable fd) => (.ok (.WaitFor fd .readable), { s with pollfd := fd }, [])
    | .ok (.WaitWritable fd) => (.ok (.WaitFor fd .writable), { s with pollfd := fd }, [])
    | .ok (.Done channel) =>
      let full_address : sockaddr_rc :=
        { rc_family := AF_BLUETOOTH, rc_bdaddr := s.addr, rc_channel := channel }
      let s1 := { s with pollfd := s.socketFd }
      if env.connectRet < 0 then
        (.err (create_error_from_errno ("Failed to connect() to target device")
          env.connectErrno), s1, [.connectCall s1.pollfd full_address])
      else
        (.ok (.WaitFor s1.pollfd .writable), { s1 with state := .Connect },
         [.connectCall s1.pollfd full_address])
  | .Connect =>
    if env.getpeernameRet < 0 then
      if env.getpeernameErrno = ENOTCONN then
        match env.readProbe with
        | .error e =>
          (.err (create_error_from_errno ("Failed to connect() to target device") e), s,
           [.getpeernameCall s.pollfd, .readProbeCall s.pollfd])
        | .ok _ =>
          (.panicked ("called Result::unwrap_err() on an Ok value"), s,
           [.getpeernameCall s.pollfd, .readProbeCall s.pollfd])
      else
        (.err (create_error_from_errno ("getpeername() failed") env.getpeernameErrno), s,
         [.getpeernameCall s.pollfd])
    else
      (.ok .Done, { s with state := .Done }, [.getpeernameCall s.pollfd])
  | .Done =>
    (.panicked ("Trying advance BtSocketConnect from Done state"), s, [])

/-! Helper lemmas about the address text functions. -/

theorem hexDigitVal_isSome {c : Nat} :
    (hexDigitVal c).isSome = true ↔ IsHexDigitByte c := by
  unfold hexDigitVal IsHexDigitByte
  split_ifs with h1 h2 h3
  · simpa using Or.inl h1
  · simpa using Or.inr (Or.inl h2)
  · simpa using Or.inr (Or.inr h3)
  · simp only [Option.isSome_none, Bool.false_eq_true, false_iff]
    omega

theorem hexDigitByte_ne_colon {n : Nat} (h : n < 16) : hexDigitByte n ≠ 58 := by
  unfold hexDigitByte
  split_ifs <;> omega

theorem hexDigitVal_hexDigitByte {n : Nat} (h : n < 16) :
    hexDigitVal (hexDigitByte n) = some n := by
  unfold hexDigitByte hexDigitVal
  split_ifs <;> first
    | (simp only [Option.some.injEq]; omega)
    | (exfalso; omega)

theorem splitColon_no_colon (xs : List Nat) (h : ∀ c ∈ xs, c ≠ 58) :
    splitColon xs = [xs] := by
  induction xs with
  | nil => rfl
  | cons c rest ih =>
    have hc : c ≠ 58 := h c (by simp)
    have hr := ih (fun d hd => h d (by simp [hd]))
    simp [splitColon, hc, hr]

theorem splitColon_append_colon (xs rest : List Nat) (h : ∀ c ∈ xs, c ≠ 58) :
    splitColon (xs ++ 58 :: rest) = xs :: splitColon rest := by
  induction xs with
  | nil => simp [splitColon]
  | cons c t ih =>
    have hc : c ≠ 58 := h c (by simp)
    have ht := ih (fun d hd => h d (by simp [hd]))
    simp [splitColon, hc, ht]

theorem pair_ne_colon {x y : Nat} (hx : x ≠ 58) (hy : y ≠ 58) :
    ∀ c ∈ [x, y], c ≠ 58 := by
  intro c hc
  simp only [List.mem_cons, List.not_mem_nil, or_false] at hc
  rcases hc with rfl | rfl <;> assumption

theorem from_str_go_isSome (gs : List (List Nat)) (i : Nat) (acc : List Nat) :
    (from_str_go gs i acc).isSome = true ↔
      (i + gs.length = 6 ∧ ∀ g ∈ gs, g.length = 2 ∧ ∀ c ∈ g, IsHexDigitByte c) := by
  induction gs generalizing i acc with
  | nil =>
    unfold from_str_go
    split_ifs with h <;> simp [h]
  | cons g gs ih =>
    by_cases hguard : i = 6 ∨ g.length ≠ 2
    · rw [from_str_go, if_pos hguard]
      simp only [Option.isSome_none, Bool.false_eq_true, false_iff, not_and]
      intro hsum hall
      rcases hguard with h6 | hlen
      · subst h6
        simp only [List.length_cons] at hsum
        omega
      · exact hlen (hall g (by simp)).1
    · push_neg at hguard
      obtain ⟨hi6, hlen⟩ := hguard
      obtain ⟨hb, lb, rfl⟩ := List.length_eq_two.mp hlen
      rw [from_str_go, if_neg (by simp [hi6])]
      simp only [List.get?_cons_zero, List.get?_cons_succ, Option.some_bind]
      cases hhb : hexDigitVal hb with
      | none =>
        simp only [Option.none_bind, Option.isSome_none, Bool.false_eq_true, false_iff, not_and]
        intro _ hall
        have := ((hall [hb, lb] (by simp)).2 hb (by simp))
        rw [← hexDigitVal_isSome, hhb] at this
        simp at this
      | some high =>
        cases hlb : hexDigitVal lb with
        | none =>
          simp only [Option.some_bind, Option.none_bind, Option.isSome_none,
            Bool.false_eq_true, false_iff, not_and]
          intro _ hall
          have := ((hall [hb, lb] (by simp)).2 lb (by simp))
          rw [← hexDigitVal_isSome, hlb] at this
          simp at this
        | some low =>
          simp only [Option.some_bind]
          rw [ih]
          constructor
          · rintro ⟨hsum, hall⟩
            refine ⟨by simp; omega, ?_⟩
            intro g hg
            simp only [List.mem_cons] at hg
            rcases hg with rfl | hg
            · refine ⟨rfl, ?_⟩
              intro c hc
              simp only [List.mem_cons, List.not_mem_nil, or_false] at hc
              rcases hc with rfl | rfl
              · rw [← hexDigitVal_isSome, hhb]; rfl
              · rw [← hexDigitVal_isSome, hlb]; rfl
            · exact hall g hg
          · rintro ⟨hsum, hall⟩
            refine ⟨by simp at hsum; omega, ?_⟩
            intro g hg
            exact hall g (by simp [hg])

theorem from_str_go_length (gs : List (List Nat)) (i : Nat) (acc bs : List Nat)
    (h : from_str_go gs i acc = some bs) : bs.length = acc.length + gs.length := by
  induction gs generalizing i acc with
  | nil =>
    rw [from_str_go] at h
    split_ifs at h
    simp_all
  | cons g gs ih =>
    rw [from_str_go] at h
    split_ifs at h
    obtain ⟨hb, hhb, rest⟩ := Option.bind_eq_some.mp h
    obtain ⟨lb, hlb, rest⟩ := Option.bind_eq_some.mp rest
    obtain ⟨high, hhigh, rest⟩ := Option.bind_eq_some.mp rest
    obtain ⟨low, hlow, rest⟩ := Option.bind_eq_some.mp rest
    have := ih _ _ rest
    simp at this ⊢
    omega

/-! Claim theorems about the address model. -/

/-- C4: BtAddr::from_str succeeds exactly on strings made of six
colon-separated two-hex-digit groups (case-insensitive); every other
input — wrong group count, a group not exactly two bytes of hex digits,
non-hex characters such as a leading sign — is rejected. The embedding is
a total function, so no input panics. -/
theorem from_str_succeeds_iff_valid_format (s : List Nat) :
    (BtAddr.from_str s).isSome = true ↔ AddrTextSpec s := by
  have hgo := from_str_go_isSome (splitColon s) 0 []
  unfold BtAddr.from_str AddrTextSpec
  constructor
  · intro h
    obtain ⟨bs, hbs⟩ : ∃ bs, from_str_go (splitColon s) 0 [] = some bs := by
      cases hgo2 : from_str_go (splitColon s) 0 [] with
      | none => rw [hgo2] at h; simp at h
      | some bs => exact ⟨bs, rfl⟩
    have hsome : (from_str_go (splitColon s) 0 []).isSome = true := by
      rw [hbs]; rfl
    have hprops := hgo.mp hsome
    simpa using hprops
  · intro hspec
    have hsome : (from_str_go (splitColon s) 0 []).isSome = true := by
      rw [hgo]
      exact ⟨by simpa using hspec.1, hspec.2⟩
    obtain ⟨bs, hbs⟩ := Option.isSome_iff_exists.mp hsome
    have hlen : bs.length = 6 := by
      have := from_str_go_length _ _ _ _ hbs
      simpa [hspec.1] using this
    rw [hbs]
    rcases bs with _ | ⟨b0, _ | ⟨b1, _ | ⟨b2, _ | ⟨b3, _ | ⟨b4, _ | ⟨b5, _ | ⟨b6, t⟩⟩⟩⟩⟩⟩⟩ <;>
      simp_all

/-- C5: the wire-order conversion is an involution: applying the
little-endian variant twice is the identity, the big-endian variant is
the identity outright, and either endianness parameter composed with
itself gives back the original address. -/
theorem convert_host_byteorder_involution (a : BtAddr) :
    a.convert_host_byteorder_le.convert_host_byteorder_le = a ∧
    a.convert_host_byteorder_be.convert_host_byteorder_be = a ∧
    a.convert_host_byteorder_be = a ∧
    ∀ e : Bool, BtAddr.convert_host_byteorder e (BtAddr.convert_host_byteorder e a) = a := by
  refine ⟨rfl, rfl, rfl, ?_⟩
  intro e
  cases e <;> rfl

/-- C10: on a little-endian host convert_host_byteorder reverses the
whole 6-byte array — byte i of the result is byte 5 − i of the input —
and the all-zero sentinel any() is a fixed point. -/
theorem convert_host_byteorder_le_reverses (a : BtAddr) (i : Fin 6) :
    a.convert_host_byteorder_le.get i
      = a.get ⟨5 - i.1, Nat.lt_succ_of_le (Nat.sub_le 5 i.1)⟩ ∧
    BtAddr.any.convert_host_byteorder_le = BtAddr.any := by
  refine ⟨?_, rfl⟩
  fin_cases i <;> rfl

theorem from_str_to_string (a : BtAddr) (hva : a.Valid) :
    BtAddr.from_str a.to_string = some a := by
  obtain ⟨h0, h1, h2, h3, h4, h5⟩ := hva
  have d0 : a.a0 / 16 < 16 := by omega
  have d1 : a.a1 / 16 < 16 := by omega
  have d2 : a.a2 / 16 < 16 := by omega
  have d3 : a.a3 / 16 < 16 := by omega
  have d4 : a.a4 / 16 < 16 := by omega
  have d5 : a.a5 / 16 < 16 := by omega
  have m0 : a.a0 % 16 < 16 := Nat.mod_lt _ (by norm_num)
  have m1 : a.a1 % 16 < 16 := Nat.mod_lt _ (by norm_num)
  have m2 : a.a2 % 16 < 16 := Nat.mod_lt _ (by norm_num)
  have m3 : a.a3 % 16 < 16 := Nat.mod_lt _ (by norm_num)
  have m4 : a.a4 % 16 < 16 := Nat.mod_lt _ (by norm_num)
  have m5 : a.a5 % 16 < 16 := Nat.mod_lt _ (by norm_num)
  have hs : splitColon a.to_string =
      [[hexDigitByte (a.a0 / 16), hexDigitByte (a.a0 % 16)],
       [hexDigitByte (a.a1 / 16), hexDigitByte (a.a1 % 16)],
       [hexDigitByte (a.a2 / 16), hexDigitByte (a.a2 % 16)],
       [hexDigitByte (a.a3 / 16), hexDigitByte (a.a3 % 16)],
       [hexDigitByte (a.a4 / 16), hexDigitByte (a.a4 % 16)],
       [hexDigitByte (a.a5 / 16), hexDigitByte (a.a5 % 16)]] := by
    show splitColon
      ([hexDigitByte (a.a0 / 16), hexDigitByte (a.a0 % 16)] ++ 58 ::
       ([hexDigitByte (a.a1 / 16), hexDigitByte (a.a1 % 16)] ++ 58 ::
        ([hexDigitByte (a.a2 / 16), hexDigitByte (a.a2 % 16)] ++ 58 ::
         ([hexDigitByte (a.a3 / 16), hexDigitByte (a.a3 % 16)] ++ 58 ::
          ([hexDigitByte (a.a4 / 16), hexDigitByte (a.a4 % 16)] ++ 58 ::
           [hexDigitByte (a.a5 / 16), hexDigitByte (a.a5 % 16)]))))) = _
    rw [splitColon_append_colon _ _
          (pair_ne_colon (hexDigitByte_ne_colon d0) (hexDigitByte_ne_colon m0)),
        splitColon_append_colon _ _
          (pair_ne_colon (hexDigitByte_ne_colon d1) (hexDigitByte_ne_colon m1)),
        splitColon_append_colon _ _
          (pair_ne_colon (hexDigitByte_ne_colon d2) (hexDigitByte_ne_colon m2)),
        splitColon_append_colon _ _
          (pair_ne_colon (hexDigitByte_ne_colon d3) (hexDigitByte_ne_colon m3)),
        splitColon_append_colon _ _
          (pair_ne_colon (hexDigitByte_ne_colon d4) (hexDigitByte_ne_colon m4)),
        splitColon_no_colon _
          (pair_ne_colon (hexDigitByte_ne_colon d5) (hexDigitByte_ne_colon m5))]
  unfold BtAddr.from_str
  rw [hs]
  simp [from_str_go, hexDigitVal_hexDigitByte d0, hexDigitVal_hexDigitByte m0,
    hexDigitVal_hexDigitByte d1, hexDigitVal_hexDigitByte m1,
    hexDigitVal_hexDigitByte d2, hexDigitVal_hexDigitByte m2,
    hexDigitVal_hexDigitByte d3, hexDigitVal_hexDigitByte m3,
    hexDigitVal_hexDigitByte d4, hexDigitVal_hexDigitByte m4,
    hexDigitVal_hexDigitByte d5, hexDigitVal_hexDigitByte m5,
    Nat.div_add_mod, Nat.div_add_mod']

/-- C6: formatting always emits the canonical uppercase colon-separated
zero-padded hex form, and for every 6-byte address a,
format(parse(format(a))) = format(a): parsing the canonical text
reproduces the same byte values. -/
theorem format_parse_format (a : BtAddr) (h : a.Valid) :
    (BtAddr.from_str a.to_string).map BtAddr.to_string = some a.to_string := by
  rw [from_str_to_string a h]
  rfl

/-- C6 witness: the concrete address [0, 22, 4, 1, 33, 192] from the
repository's own tests. -/
theorem format_parse_format_witness :
    (⟨0, 22, 4, 1, 33, 192⟩ : BtAddr).Valid ∧
    (BtAddr.from_str (BtAddr.to_string ⟨0, 22, 4, 1, 33, 192⟩)).map BtAddr.to_string
      = some (BtAddr.to_string ⟨0, 22, 4, 1, 33, 192⟩) :=
  ⟨by decide, format_parse_format ⟨0, 22, 4, 1, 33, 192⟩ (by decide)⟩

/-! Claim theorems about the connection state machine. -/

/-- C8: every advance call that returns an error leaves the phase tag
unchanged, and also leaves the address and target socket fd unchanged;
only the pollfd field may have been updated. -/
theorem advance_error_preserves_state (s : BtSocketConnect) (env : ConnectEnv)
    (e : BtError) (h : (s.advance env).1 = .err e) :
    (s.advance env).2.1.state = s.state ∧
    (s.advance env).2.1.addr = s.addr ∧
    (s.advance env).2.1.socketFd = s.socketFd := by
  rcases s with ⟨addr, pollfd, st, fd⟩
  rcases env with ⟨q, cr, ce, gr, ge, rp⟩
  cases st with
  | SDPSearch =>
    cases q with
    | error e2 => simp [BtSocketConnect.advance] at h ⊢
    | ok status =>
      cases status with
      | WaitReadable fd2 => simp [BtSocketConnect.advance] at h
      | WaitWritable fd2 => simp [BtSocketConnect.advance] at h
      | Done ch =>
        by_cases hc : cr < 0 <;> simp [BtSocketConnect.advance, hc] at h ⊢
  | Connect =>
    by_cases hg : gr < 0
    · by_cases hn : ge = ENOTCONN
      · cases rp with
        | error e2 => simp [BtSocketConnect.advance, hg, hn] at h ⊢
        | ok n => simp [BtSocketConnect.advance, hg, hn] at h
      · simp [BtSocketConnect.advance, hg, hn] at h ⊢
    · simp [BtSocketConnect.advance, hg] at h
  | Done => simp [BtSocketConnect.advance] at h

/-- C8 witness: a failing getpeername in the Connect phase leaves the
machine in the Connect phase with address and socket fd intact. -/
theorem advance_error_preserves_state_witness :
    ((⟨BtAddr.any, 7, .Connect, 7⟩ : BtSocketConnect).advance
        ⟨.ok (.Done 1), 0, 0, -1, 111, .error 0⟩).1
      = .err (.Errno 111 ("getpeername() failed")) ∧
    (((⟨BtAddr.any, 7, .Connect, 7⟩ : BtSocketConnect).advance
        ⟨.ok (.Done 1), 0, 0, -1, 111, .error 0⟩).2.1.state
        = (⟨BtAddr.any, 7, .Connect, 7⟩ : BtSocketConnect).state ∧
     ((⟨BtAddr.any, 7, .Connect, 7⟩ : BtSocketConnect).advance
        ⟨.ok (.Done 1), 0, 0, -1, 111, .error 0⟩).2.1.addr
        = (⟨BtAddr.any, 7, .Connect, 7⟩ : BtSocketConnect).addr ∧
     ((⟨BtAddr.any, 7, .Connect, 7⟩ : BtSocketConnect).advance
        ⟨.ok (.Done 1), 0, 0, -1, 111, .error 0⟩).2.1.socketFd
        = (⟨BtAddr.any, 7, .Connect, 7⟩ : BtSocketConnect).socketFd) :=
  ⟨rfl, advance_error_preserves_state ⟨BtAddr.any, 7, .Connect, 7⟩
    ⟨.ok (.Done 1), 0, 0, -1, 111, .error 0⟩ (.Errno 111 ("getpeername() failed")) rfl⟩

/-- C2: in the Connect phase, when getpeername fails with ENOTCONN the
machine performs the one-byte read probe and the returned error carries
the probe's errno (the actual asynchronous connect failure), not the
generic ENOTCONN code; any other getpeername failure is returned as-is
with its own errno and no probe is performed. -/
theorem advance_connect_enotconn_probe (s : BtSocketConnect) (env : ConnectEnv)
    (hstate : s.state = .Connect) (hfail : env.getpeernameRet < 0) :
    (env.getpeernameErrno = ENOTCONN →
      ∀ e, env.readProbe = .error e →
        s.advance env
          = (.err (.Errno e ("Failed to connect() to target device")), s,
             [.getpeernameCall s.pollfd, .readProbeCall s.pollfd])) ∧
    (env.getpeernameErrno ≠ ENOTCONN →
      s.advance env
        = (.err (.Errno env.getpeernameErrno ("getpeername() failed")), s,
           [.getpeernameCall s.pollfd])) := by
  rcases s with ⟨addr, pollfd, st, fd⟩
  simp only at hstate
  subst hstate
  constructor
  · intro hn e hp
    simp [BtSocketConnect.advance, hfail, hn, hp, create_error_from_errno]
  · intro hn
    simp [BtSocketConnect.advance, hfail, hn, create_error_from_errno]

/-- C2 witness: a refused connect — getpeername fails with ENOTCONN and
the probe read fails with ECONNREFUSED (111), which is the code the
returned error carries. -/
theorem advance_connect_enotconn_probe_witness :
    (⟨BtAddr.any, 7, .Connect, 7⟩ : BtSocketConnect).state = .Connect ∧
    ((-1 : Int) < 0) ∧
    (⟨BtAddr.any, 7, .Connect, 7⟩ : BtSocketConnect).advance
        ⟨.ok (.Done 1), 0, 0, -1, 107, .error 111⟩
      = (.err (.Errno 111 ("Failed to connect() to target device")),
         ⟨BtAddr.any, 7, .Connect, 7⟩, [.getpeernameCall 7, .readProbeCall 7]) :=
  ⟨rfl, by decide,
    (advance_connect_enotconn_probe ⟨BtAddr.any, 7, .Connect, 7⟩
      ⟨.ok (.Done 1), 0, 0, -1, 107, .error 111⟩ rfl (by decide)).1 rfl 111 rfl⟩

/-- C1 counterexample: with the SDP phase yielding channel 1, (i) an
immediately successful connect (return 0) moves the machine to the
Connect phase and yields WaitWritable on the target fd — not to Done as
the claim states — and (ii) a connect failing with EINPROGRESS (the
non-blocking in-progress report) is returned as a terminal error instead
of moving to Connect and yielding WaitWritable. -/
theorem advance_sdp_done_counterexample :
    ((⟨BtAddr.any, 0, .SDPSearch, 5⟩ : BtSocketConnect).advance
        ⟨.ok (.Done 1), 0, 0, 0, 0, .error 0⟩
      = (.ok (.WaitFor 5 .writable), ⟨BtAddr.any, 5, .Connect, 5⟩,
         [.connectCall 5 ⟨31, BtAddr.any, 1⟩])) ∧
    ((⟨BtAddr.any, 0, .SDPSearch, 5⟩ : BtSocketConnect).advance
        ⟨.ok (.Done 1), -1, EINPROGRESS, 0, 0, .error 0⟩
      = (.err (.Errno EINPROGRESS ("Failed to connect() to target device")),
         ⟨BtAddr.any, 5, .SDPSearch, 5⟩, [.connectCall 5 ⟨31, BtAddr.any, 1⟩])) :=
  ⟨rfl, rfl⟩

/-- C1 amended: on Done(channel) the machine builds the remote socket
address (AF_BLUETOOTH family, the machine's stored address — the target
address in wire byte order, by construction in BtSocket::connect — plus
the discovered channel), sets pollfd to the target socket's fd and issues
the connect there; exactly two outcomes: a negative connect return is a
terminal error carrying its errno (EINPROGRESS included), any other
return moves the machine to the Connect phase and yields WaitWritable on
the target socket's fd. No outcome reaches Done directly. -/
theorem advance_sdp_done_amended (s : BtSocketConnect) (env : ConnectEnv) (ch : Nat)
    (hstate : s.state = .SDPSearch) (hq : env.queryAdvance = .ok (.Done ch)) :
    (s.advance env).2.2 = [.connectCall s.socketFd ⟨AF_BLUETOOTH, s.addr, ch⟩] ∧
    (s.advance env).2.1.pollfd = s.socketFd ∧
    (env.connectRet < 0 →
      s.advance env
        = (.err (.Errno env.connectErrno ("Failed to connect() to target device")),
           { s with pollfd := s.socketFd },
           [.connectCall s.socketFd ⟨AF_BLUETOOTH, s.addr, ch⟩])) ∧
    (0 ≤ env.connectRet →
      s.advance env
        = (.ok (.WaitFor s.socketFd .writable),
           { s with pollfd := s.socketFd, state := .Connect },
           [.connectCall s.socketFd ⟨AF_BLUETOOTH, s.addr, ch⟩])) ∧
    (∀ fd le a0, (BtSocket.connect fd le a0).addr = a0.convert_host_byteorder le) := by
  rcases s with ⟨addr, pollfd, st, fd⟩
  simp only at hstate
  subst hstate
  by_cases hc : env.connectRet < 0
  · refine ⟨?_, ?_, ?_, ?_, ?_⟩ <;>
      simp [BtSocketConnect.advance, hq, hc, create_error_from_errno, BtSocket.connect,
        BtSocketConnect.new]
  · refine ⟨?_, ?_, ?_, ?_, ?_⟩ <;>
      simp [BtSocketConnect.advance, hq, hc, create_error_from_errno, BtSocket.connect,
        BtSocketConnect.new]

/-- C1 witness: channel 1 discovered, connect returns 0 — the machine
moves to Connect and asks to wait for writability of the target fd. -/
theorem advance_sdp_done_amended_witness :
    (⟨BtAddr.any, 0, .SDPSearch, 5⟩ : BtSocketConnect).state = .SDPSearch ∧
    (⟨.ok (.Done 1), 0, 0, 0, 0, .error 0⟩ : ConnectEnv).queryAdvance = .ok (.Done 1) ∧
    ((⟨BtAddr.any, 0, .SDPSearch, 5⟩ : BtSocketConnect).advance
        ⟨.ok (.Done 1), 0, 0, 0, 0, .error 0⟩).2.2
      = [.connectCall 5 ⟨AF_BLUETOOTH, BtAddr.any, 1⟩] ∧
    ((0 : Int) ≤ 0 →
      (⟨BtAddr.any, 0, .SDPSearch, 5⟩ : BtSocketConnect).advance
        ⟨.ok (.Done 1), 0, 0, 0, 0, .error 0⟩
        = (.ok (.WaitFor 5 .writable), ⟨BtAddr.any, 5, .Connect, 5⟩,
           [.connectCall 5 ⟨AF_BLUETOOTH, BtAddr.any, 1⟩])) :=
  ⟨rfl, rfl,
    (advance_sdp_done_amended ⟨BtAddr.any, 0, .SDPSearch, 5⟩
      ⟨.ok (.Done 1), 0, 0, 0, 0, .error 0⟩ 1 rfl rfl).1,
    (advance_sdp_done_amended ⟨BtAddr.any, 0, .SDPSearch, 5⟩
      ⟨.ok (.Done 1), 0, 0, 0, 0, .error 0⟩ 1 rfl rfl).2.2.2.1⟩

/-- C3 counterexample: in the Connect phase a getpeername failure with
ECONNREFUSED is a terminal error that leaves the machine in the Connect
phase, and calling advance again on the returned state is not rejected —
it performs getpeername again and returns the same error, silently
repeating the failed step. -/
theorem advance_after_error_counterexample :
    ((⟨BtAddr.any, 7, .Connect, 7⟩ : BtSocketConnect).advance
        ⟨.ok (.Done 1), 0, 0, -1, 111, .error 0⟩
      = (.err (.Errno 111 ("getpeername() failed")),
         ⟨BtAddr.any, 7, .Connect, 7⟩, [.getpeernameCall 7])) ∧
    ((((⟨BtAddr.any, 7, .Connect, 7⟩ : BtSocketConnect).advance
        ⟨.ok (.Done 1), 0, 0, -1, 111, .error 0⟩).2.1).advance
        ⟨.ok (.Done 1), 0, 0, -1, 111, .error 0⟩
      = (.err (.Errno 111 ("getpeername() failed")),
         ⟨BtAddr.any, 7, .Connect, 7⟩, [.getpeernameCall 7])) :=
  ⟨rfl, rfl⟩

/-- C3 amended: only the Done phase rejects a further advance call — it
fails loudly with a panic; after an advance call that returned a terminal
error the phase tag is unchanged, so a subsequent advance call silently
repeats the failed phase's work instead of being rejected. -/
theorem advance_done_panics_error_repeats (s : BtSocketConnect) (env : ConnectEnv) :
    (s.state = .Done →
      s.advance env
        = (.panicked ("Trying advance BtSocketConnect from Done state"), s, [])) ∧
    (∀ e, (s.advance env).1 = .err e → (s.advance env).2.1.state = s.state) := by
  constructor
  · intro hdone
    rcases s with ⟨addr, pollfd, st, fd⟩
    simp only at hdone
    subst hdone
    simp [BtSocketConnect.advance]
  · intro e he
    exact (advance_error_preserves_state s env e he).1

/-- C3 witness: a machine in the Done phase panics when advanced. -/
theorem advance_done_panics_error_repeats_witness :
    (⟨BtAddr.any, 7, .Done, 7⟩ : BtSocketConnect).state = .Done ∧
    (⟨BtAddr.any, 7, .Done, 7⟩ : BtSocketConnect).advance
        ⟨.ok (.Done 1), 0, 0, 0, 0, .error 0⟩
      = (.panicked ("Trying advance BtSocketConnect from Done state"),
         ⟨BtAddr.any, 7, .Done, 7⟩, []) :=
  ⟨rfl, (advance_done_panics_error_repeats ⟨BtAddr.any, 7, .Done, 7⟩
    ⟨.ok (.Done 1), 0, 0, 0, 0, .error 0⟩).1 rfl⟩

/-! Claim theorems about scan_devices. -/

/-- C7: every timeout whose whole-second component exceeds the u32 range
is rejected before the inquiry is performed, and — whenever the adapter
lookup and open succeed, so that control reaches the validation — the
result is the descriptive BtError::Desc variant. -/
theorem scan_devices_rejects_big_timeout (t : Duration) (env : ScanEnv)
    (h : t.secs > u32_max) :
    (scan_devices t env).2 = false ∧
    (0 ≤ env.getRouteRet → 0 ≤ env.openDevRet →
      (scan_devices t env).1
        = .error (.Desc ("Timeout value too big " ++ toString t.secs ++ " > "
            ++ toString u32_max))) := by
  unfold scan_devices
  by_cases h1 : env.getRouteRet < 0
  · simp [h1]
  · by_cases h2 : env.openDevRet < 0
    · simp [h1, h2]
    · simp [h1, h2, h]

/-- C7 witness: one second past the u32 range, with an adapter present. -/
theorem scan_devices_rejects_big_timeout_witness :
    (⟨4294967296, 0⟩ : Duration).secs > u32_max ∧
    (scan_devices ⟨4294967296, 0⟩
        ⟨true, 0, 0, 3, 0, 0, 0, fun _ => BtAddr.any, fun _ => none, 0, 0⟩).2 = false ∧
    ((0 : Int) ≤ 0 → (0 : Int) ≤ 3 →
      (scan_devices ⟨4294967296, 0⟩
          ⟨true, 0, 0, 3, 0, 0, 0, fun _ => BtAddr.any, fun _ => none, 0, 0⟩).1
        = .error (.Desc ("Timeout value too big " ++ toString (4294967296 : Nat) ++ " > "
            ++ toString u32_max))) :=
  ⟨by decide,
    (scan_devices_rejects_big_timeout ⟨4294967296, 0⟩
      ⟨true, 0, 0, 3, 0, 0, 0, fun _ => BtAddr.any, fun _ => none, 0, 0⟩ (by decide)).1,
    (scan_devices_rejects_big_timeout ⟨4294967296, 0⟩
      ⟨true, 0, 0, 3, 0, 0, 0, fun _ => BtAddr.any, fun _ => none, 0, 0⟩ (by decide)).2⟩

/-- C9: whatever the timeout and however many responses the inquiry
reports, scan_devices returns at most 256 devices — the 256-entry buffer
is truncated to the reported response count. -/
theorem scan_devices_at_most_256 (t : Duration) (env : ScanEnv)
    (devs : List BtDevice) (h : (scan_devices t env).1 = .ok devs) :
    devs.length ≤ 256 := by
  unfold scan_devices at h
  split_ifs at h
  all_goals simp_all
  rw [← h]
  simp only [List.length_map, List.length_range]
  exact min_le_right _ _

/-- C9 witness: an inquiry reporting zero responses yields the empty
device list. -/
theorem scan_devices_at_most_256_witness :
    (scan_devices ⟨10, 0⟩
        ⟨true, 0, 0, 3, 0, 0, 0, fun _ => BtAddr.any, fun _ => none, 0, 0⟩).1
      = .ok [] ∧
    ([] : List BtDevice).length ≤ 256 :=
  ⟨rfl, scan_devices_at_most_256 ⟨10, 0⟩
    ⟨true, 0, 0, 3, 0, 0, 0, fun _ => BtAddr.any, fun _ => none, 0, 0⟩ [] rfl⟩

end BtSerial
